import Mathlib

/-!
Verification of the investment-automation dashboard core against its
specification.  The data model is a shallow embedding of the TypeScript
interfaces in `docs-src/src/types/stock.ts`, and the operations are embedded
from the dashboard sources (`docs/app.js`, `docs-src/src/App.tsx`,
`docs-src/src/components/stockColumns.tsx`,
`docs-src/src/hooks/useColumnPreferences.ts`, `api/thesis.ts`,
`docs-src/src/components/ThesisGenerator.tsx`).  Machine numbers are modelled
as rationals; JavaScript values that may be `null`/`undefined` are modelled
with `Option` or with a dedicated value type.
-/

namespace InvestmentAutomation

/-- Activity action tag, from the TS union
`'Buy' | 'Add' | 'Sell' | 'Reduce' | 'Hold' | 'New'` in `stock.ts`. -/
inductive ActionTag where
  | Buy
  | Add
  | Sell
  | Reduce
  | Hold
  | New
deriving DecidableEq, Repr

/-- Activity structure from Dataroma (`stock.ts`). -/
structure Activity where
  action : ActionTag
  percentage : Option ℚ
deriving DecidableEq, Repr

/-- Individual investor entry (`stock.ts`). -/
structure Investor where
  name : String
  fund_id : String
  portfolio_pct : Option ℚ
  shares : Option ℚ
  activity : Activity
  activity_raw : String
  source_url : String
deriving DecidableEq, Repr

/-- Substack mention entry (`stock.ts`). -/
structure SubstackMention where
  publication : String
  article_title : String
  article_url : String
  thesis : String
  published_date : Option String
deriving DecidableEq, Repr

/-- Dataroma data for a stock (`stock.ts`). -/
structure DataromaData where
  investors : List Investor
deriving DecidableEq, Repr

/-- Substack data for a stock (`stock.ts`). -/
structure SubstackData where
  mentions : List SubstackMention
deriving DecidableEq, Repr

/-- A TypeScript `number | string` field value, as used by the
`Fundamentals` interface in `stock.ts`. -/
inductive NumStr where
  | num (q : ℚ)
  | str (s : String)
deriving DecidableEq, Repr

/-- Fundamentals from yfinance (`stock.ts`): seventeen `number | string`
fields, five classification `string` fields, one `boolean` field. -/
structure Fundamentals where
  pe_ratio : NumStr
  forward_pe : NumStr
  pb_ratio : NumStr
  peg_ratio : NumStr
  week_52_high : NumStr
  week_52_low : NumStr
  pct_above_52w_low : NumStr
  pct_below_52w_high : NumStr
  current_price : NumStr
  previous_close : NumStr
  total_cash : NumStr
  total_debt : NumStr
  long_term_debt : NumStr
  net_debt : NumStr
  market_cap : NumStr
  insider_pct : NumStr
  institutional_pct : NumStr
  sector : String
  industry : String
  country : String
  currency : String
  exchange : String
  is_international : Bool
deriving DecidableEq, Repr

/-- Main stock entry (`stock.ts`); `thesis : string | null` becomes
`Option String`. -/
structure Stock where
  ticker : String
  company_name : String
  sources : List String
  dataroma_data : DataromaData
  substack_data : SubstackData
  fundamentals : Fundamentals
  stockanalysis_link : String
  is_etf : Bool
  thesis : Option String
  aggregate_activity : String
  investor_count : ℕ
  mention_count : ℕ
deriving DecidableEq, Repr

/-- Stats from the data file (`stock.ts`). -/
structure Stats where
  dataroma_stocks : ℕ
  substack_stocks : ℕ
  both_sources : ℕ
  dataroma_only : ℕ
  substack_only : ℕ
deriving DecidableEq, Repr

/-- Root data structure (`stock.ts`). -/
structure StockData where
  last_updated : String
  total_stocks : ℕ
  stats : Stats
  stocks : List Stock
deriving DecidableEq, Repr

/-! ### Dashboard metadata counts (`docs/app.js`, `updateMetadata`) -/

/-- Embeds `data.stocks.filter(s => s.sources.includes('Dataroma')).length`
from `updateMetadata`. -/
def dataromaCount (stocks : List Stock) : ℕ :=
  (stocks.filter (fun s => s.sources.contains "Dataroma")).length

/-- Embeds `data.stocks.filter(s => s.sources.includes('Substack')).length`
from `updateMetadata`. -/
def substackCount (stocks : List Stock) : ℕ :=
  (stocks.filter (fun s => s.sources.contains "Substack")).length

/-- Embeds the filter counting stocks whose sources include both
`'Dataroma'` and `'Substack'` in `updateMetadata`. -/
def bothCount (stocks : List Stock) : ℕ :=
  (stocks.filter
    (fun s => s.sources.contains "Dataroma" && s.sources.contains "Substack")).length

/-- C1: for every stocks array, the count of stocks listing both sources is
at most the count listing Dataroma and at most the count listing Substack. -/
theorem bothCount_le_min (stocks : List Stock) :
    bothCount stocks ≤ min (dataromaCount stocks) (substackCount stocks) := by
  refine le_min ?_ ?_ <;>
    · simp only [bothCount, dataromaCount, substackCount]
      rw [← List.countP_eq_length_filter, ← List.countP_eq_length_filter]
      refine List.countP_mono_left ?_
      intro s _ h
      simp only [Bool.and_eq_true] at h
      first
      | simpa using h.1
      | simpa using h.2

/-! ### Aggregate activity (Merger) -/

/-- Modelled from the spec: the Python merger (`src/processors/data_merger.py`),
which computes `aggregate_activity`, is not among the provided sources.
Following the spec (section 4.2 step 4), the portfolio observations' activity
tags are scanned with precedence New > Add/Buy > Reduce/Sell > Hold: any `New`
observation makes the aggregate `New`; otherwise the first `Add` or `Buy` tag
is the aggregate; otherwise the first `Reduce` or `Sell` tag is the aggregate;
with no portfolio observations (or only `Hold` tags) the aggregate is `Hold`. -/
def aggregateActivity (obs : List ActionTag) : ActionTag :=
  if obs.contains ActionTag.New then ActionTag.New
  else
    match obs.find? (fun a => a == ActionTag.Add || a == ActionTag.Buy) with
    | some a => a
    | none =>
      match obs.find? (fun a => a == ActionTag.Reduce || a == ActionTag.Sell) with
      | some a => a
      | none => ActionTag.Hold

/-- String form of an activity tag as it appears in the `aggregate_activity`
field of the output artifact. -/
def ActionTag.toStr : ActionTag → String
  | ActionTag.Buy => "Buy"
  | ActionTag.Add => "Add"
  | ActionTag.Sell => "Sell"
  | ActionTag.Reduce => "Reduce"
  | ActionTag.Hold => "Hold"
  | ActionTag.New => "New"

/-- C2: the aggregate activity obeys the precedence
New > Add/Buy > Reduce/Sell > Hold; an empty observation list aggregates to
Hold; `[Hold, New, Sell]` aggregates to `New` and `[Reduce, Hold]` to
`Reduce`. -/
theorem aggregateActivity_precedence :
    (∀ obs : List ActionTag, ActionTag.New ∈ obs →
      aggregateActivity obs = ActionTag.New) ∧
    (∀ obs : List ActionTag, ActionTag.New ∉ obs →
      (ActionTag.Add ∈ obs ∨ ActionTag.Buy ∈ obs) →
      (aggregateActivity obs = ActionTag.Add ∨
        aggregateActivity obs = ActionTag.Buy) ∧ aggregateActivity obs ∈ obs) ∧
    (∀ obs : List ActionTag, ActionTag.New ∉ obs → ActionTag.Add ∉ obs →
      ActionTag.Buy ∉ obs →
      (ActionTag.Reduce ∈ obs ∨ ActionTag.Sell ∈ obs) →
      (aggregateActivity obs = ActionTag.Reduce ∨
        aggregateActivity obs = ActionTag.Sell) ∧ aggregateActivity obs ∈ obs) ∧
    aggregateActivity [] = ActionTag.Hold ∧
    aggregateActivity [ActionTag.Hold, ActionTag.New, ActionTag.Sell] =
      ActionTag.New ∧
    aggregateActivity [ActionTag.Reduce, ActionTag.Hold] = ActionTag.Reduce := by
  refine ⟨?_, ?_, ?_, by decide, by decide, by decide⟩
  · intro obs h
    simp [aggregateActivity, List.elem_eq_mem, h]
  · intro obs hnew hab
    have hfind : (obs.find? (fun a => a == ActionTag.Add || a == ActionTag.Buy)).isSome := by
      rw [List.find?_isSome]
      rcases hab with h | h
      · exact ⟨ActionTag.Add, h, by decide⟩
      · exact ⟨ActionTag.Buy, h, by decide⟩
    obtain ⟨a, ha⟩ := Option.isSome_iff_exists.mp hfind
    have hmem := List.mem_of_find?_eq_some ha
    have hpa := List.find?_some ha
    have hval : aggregateActivity obs = a := by
      simp [aggregateActivity, List.elem_eq_mem, hnew, ha]
    refine ⟨?_, hval ▸ hmem⟩
    rw [hval]
    revert hpa
    cases a <;> simp
  · intro obs hnew hadd hbuy hrs
    have hnone : obs.find? (fun a => a == ActionTag.Add || a == ActionTag.Buy) = none := by
      rw [List.find?_eq_none]
      intro a ha
      cases a <;> simp_all
    have hfind : (obs.find? (fun a => a == ActionTag.Reduce || a == ActionTag.Sell)).isSome := by
      rw [List.find?_isSome]
      rcases hrs with h | h
      · exact ⟨ActionTag.Reduce, h, by decide⟩
      · exact ⟨ActionTag.Sell, h, by decide⟩
    obtain ⟨a, ha⟩ := Option.isSome_iff_exists.mp hfind
    have hmem := List.mem_of_find?_eq_some ha
    have hpa := List.find?_some ha
    have hval : aggregateActivity obs = a := by
      simp [aggregateActivity, List.elem_eq_mem, hnew, hnone, ha]
    refine ⟨?_, hval ▸ hmem⟩
    rw [hval]
    revert hpa
    cases a <;> simp

/-- C2 witness: the precedence theorem applied at the spec's concrete
examples. -/
theorem aggregateActivity_precedence_witness :
    aggregateActivity [ActionTag.Hold, ActionTag.New, ActionTag.Sell] =
      ActionTag.New ∧
    ((aggregateActivity [ActionTag.Hold, ActionTag.Add] = ActionTag.Add ∨
      aggregateActivity [ActionTag.Hold, ActionTag.Add] = ActionTag.Buy) ∧
      aggregateActivity [ActionTag.Hold, ActionTag.Add] ∈
        [ActionTag.Hold, ActionTag.Add]) ∧
    ((aggregateActivity [ActionTag.Reduce, ActionTag.Hold] = ActionTag.Reduce ∨
      aggregateActivity [ActionTag.Reduce, ActionTag.Hold] = ActionTag.Sell) ∧
      aggregateActivity [ActionTag.Reduce, ActionTag.Hold] ∈
        [ActionTag.Reduce, ActionTag.Hold]) :=
  ⟨aggregateActivity_precedence.1 _ (by decide),
   aggregateActivity_precedence.2.1 _ (by decide) (Or.inl (by decide)),
   aggregateActivity_precedence.2.2.1 _ (by decide) (by decide) (by decide)
     (Or.inl (by decide))⟩

/-! ### Activity column rendering -/

/-- Rendered content of an activity table cell: either the neutral dash
marker or a badge with a label and a style string. -/
inductive ActivityCell where
  | dash
  | badge (label : String) (css : String)
deriving DecidableEq, Repr

/-- Embeds `getActivityBadgeClass` from `stockColumns.tsx` (the name is
shortened; the body is the same case analysis on the lower-cased activity). -/
def activityBadgeStyle (activity : String) : String :=
  let action := activity.toLower
  if action = "new" || action = "buy" then "bg-green-100 text-green-800"
  else if action = "add" then "bg-blue-100 text-blue-800"
  else if action = "sell" then "bg-red-100 text-red-800"
  else if action = "reduce" then "bg-orange-100 text-orange-800"
  else "bg-gray-100 text-gray-600"

/-- Embeds the `activity` column cell of `getStockColumns` in
`stockColumns.tsx`: a `'Hold'` aggregate renders the gray dash, anything else
renders a badge. -/
def renderActivityCell (activity : String) : ActivityCell :=
  if activity = "Hold" then ActivityCell.dash
  else ActivityCell.badge activity (activityBadgeStyle activity)

/-- JavaScript `String.prototype.includes`, modelled as a substring test on
the character lists. -/
def jsIncludes (s sub : String) : Bool :=
  decide (sub.toList <:+: s.toList)

/-- Embeds the `dataroma_data.activity` column renderer of `initializeTable`
in `docs/app.js`: a missing, empty or `'Hold'` value renders `'-'`, anything
else renders a badge whose class depends on substring tests. `none` models a
`null`/`undefined` value, and the empty string is the other falsy case of
`!data`. -/
def legacyRenderActivity (data : Option String) : ActivityCell :=
  match data with
  | none => ActivityCell.dash
  | some s =>
    if s = "" || s = "Hold" then ActivityCell.dash
    else
      ActivityCell.badge s
        (if jsIncludes s "New" then "activity-new"
         else if jsIncludes s "Increased" then "activity-increase"
         else if jsIncludes s "Decreased" then "activity-decrease"
         else "bg-secondary")

/-- C6: a stock whose `aggregate_activity` is `'Hold'` renders the neutral
dash in both table implementations, never a badge, and the
no-portfolio-observations aggregate (`Hold`) renders the dash. -/
theorem holdRendersDash :
    (∀ s : Stock, s.aggregate_activity = "Hold" →
      renderActivityCell s.aggregate_activity = ActivityCell.dash ∧
      legacyRenderActivity (some s.aggregate_activity) = ActivityCell.dash) ∧
    (∀ label css, renderActivityCell "Hold" ≠ ActivityCell.badge label css) ∧
    aggregateActivity [] = ActionTag.Hold ∧
    renderActivityCell (ActionTag.toStr (aggregateActivity [])) =
      ActivityCell.dash ∧
    legacyRenderActivity none = ActivityCell.dash := by
  refine ⟨?_, ?_, by decide, by decide, by decide⟩
  · intro s h
    rw [h]
    exact ⟨by decide, by decide⟩
  · intro label css
    simp [renderActivityCell]

/-! ### Sample values for witnesses -/

/-- Sample fundamentals value, with the shape the UI expects (numeric
valuation fields or the `'N/A'` marker, classification strings, a boolean
international flag). -/
def sampleFundamentals : Fundamentals :=
  { pe_ratio := NumStr.num 10
    forward_pe := NumStr.str "N/A"
    pb_ratio := NumStr.num 2
    peg_ratio := NumStr.str "N/A"
    week_52_high := NumStr.num 200
    week_52_low := NumStr.num 100
    pct_above_52w_low := NumStr.num 12
    pct_below_52w_high := NumStr.num 40
    current_price := NumStr.num 120
    previous_close := NumStr.num 118
    total_cash := NumStr.num 1000000
    total_debt := NumStr.num 500000
    long_term_debt := NumStr.num 300000
    net_debt := NumStr.num (-500000)
    market_cap := NumStr.num 2000000
    insider_pct := NumStr.num 5
    institutional_pct := NumStr.num 60
    sector := "Technology"
    industry := "Consumer Electronics"
    country := "United States"
    currency := "USD"
    exchange := "NMS"
    is_international := false }

/-- Sample stock record. -/
def sampleStock : Stock :=
  { ticker := "AAPL"
    company_name := "Apple Inc."
    sources := ["Dataroma", "Substack"]
    dataroma_data := { investors := [] }
    substack_data := { mentions := [] }
    fundamentals := sampleFundamentals
    stockanalysis_link := "https://stockanalysis.com/stocks/AAPL"
    is_etf := false
    thesis := none
    aggregate_activity := "Hold"
    investor_count := 0
    mention_count := 0 }

/-- Sample root data document. -/
def sampleStockData : StockData :=
  { last_updated := "2026-01-03T10:00:00Z"
    total_stocks := 2
    stats :=
      { dataroma_stocks := 1
        substack_stocks := 2
        both_sources := 1
        dataroma_only := 0
        substack_only := 1 }
    stocks := [sampleStock, { sampleStock with ticker := "MSFT" }] }

/-- C6 witness: the rendering theorem applied at the sample stock, whose
aggregate activity is `'Hold'`. -/
theorem holdRendersDash_witness :
    renderActivityCell sampleStock.aggregate_activity = ActivityCell.dash ∧
    legacyRenderActivity (some sampleStock.aggregate_activity) =
      ActivityCell.dash :=
  holdRendersDash.1 sampleStock (by decide)

/-! ### Thesis update (App.tsx) -/

/-- Embeds `handleThesisUpdate` from `App.tsx`: replace the `thesis` field of
every stock whose ticker matches, leave everything else as it was. -/
def handleThesisUpdate (ticker thesis : String) (prev : StockData) : StockData :=
  { prev with
    stocks := prev.stocks.map fun stock =>
      if stock.ticker = ticker then { stock with thesis := some thesis }
      else stock }

/-- C9: `handleThesisUpdate` changes only the `thesis` field of stocks whose
ticker matches; stocks with a different ticker and the top-level
`last_updated`, `total_stocks` and `stats` fields are unchanged. -/
theorem handleThesisUpdate_frame (ticker thesis : String) (d : StockData) :
    (handleThesisUpdate ticker thesis d).last_updated = d.last_updated ∧
    (handleThesisUpdate ticker thesis d).total_stocks = d.total_stocks ∧
    (handleThesisUpdate ticker thesis d).stats = d.stats ∧
    List.Forall₂
      (fun s s' =>
        (s.ticker ≠ ticker → s' = s) ∧
        (s.ticker = ticker →
          s'.ticker = s.ticker ∧ s'.company_name = s.company_name ∧
          s'.sources = s.sources ∧ s'.dataroma_data = s.dataroma_data ∧
          s'.substack_data = s.substack_data ∧
          s'.fundamentals = s.fundamentals ∧
          s'.stockanalysis_link = s.stockanalysis_link ∧
          s'.is_etf = s.is_etf ∧
          s'.aggregate_activity = s.aggregate_activity ∧
          s'.investor_count = s.investor_count ∧
          s'.mention_count = s.mention_count ∧
          s'.thesis = some thesis))
      d.stocks (handleThesisUpdate ticker thesis d).stocks := by
  refine ⟨rfl, rfl, rfl, ?_⟩
  have hmap : (handleThesisUpdate ticker thesis d).stocks =
      d.stocks.map (fun stock =>
        if stock.ticker = ticker then { stock with thesis := some thesis }
        else stock) := rfl
  rw [hmap, List.forall₂_map_right_iff, List.forall₂_same]
  intro s _
  by_cases h : s.ticker = ticker
  · simp [h]
  · simp [h]

/-- C9 witness: the frame theorem applied at the sample data with the ticker
`AAPL`. -/
theorem handleThesisUpdate_frame_witness :
    (handleThesisUpdate "AAPL" "Strong moat." sampleStockData).last_updated =
      sampleStockData.last_updated ∧
    (handleThesisUpdate "AAPL" "Strong moat." sampleStockData).total_stocks =
      sampleStockData.total_stocks ∧
    (handleThesisUpdate "AAPL" "Strong moat." sampleStockData).stats =
      sampleStockData.stats ∧
    List.Forall₂
      (fun s s' =>
        (s.ticker ≠ "AAPL" → s' = s) ∧
        (s.ticker = "AAPL" →
          s'.ticker = s.ticker ∧ s'.company_name = s.company_name ∧
          s'.sources = s.sources ∧ s'.dataroma_data = s.dataroma_data ∧
          s'.substack_data = s.substack_data ∧
          s'.fundamentals = s.fundamentals ∧
          s'.stockanalysis_link = s.stockanalysis_link ∧
          s'.is_etf = s.is_etf ∧
          s'.aggregate_activity = s.aggregate_activity ∧
          s'.investor_count = s.investor_count ∧
          s'.mention_count = s.mention_count ∧
          s'.thesis = some "Strong moat."))
      sampleStockData.stocks
      (handleThesisUpdate "AAPL" "Strong moat." sampleStockData).stocks :=
  handleThesisUpdate_frame "AAPL" "Strong moat." sampleStockData

/-! ### Thesis edge function (api/thesis.ts) -/

namespace ThesisApi

/-- Request body of the thesis endpoint (`ThesisRequest` in `api/thesis.ts`);
optional fields become `Option`, and the JavaScript falsiness test `!ticker`
corresponds to the empty string. -/
structure ThesisRequest where
  ticker : String
  company_name : Option String
  investor_names : Option (List String)
  password : String
deriving DecidableEq, Repr

/-- JSON body of a thesis endpoint response (`ThesisResponse` in
`api/thesis.ts`). -/
structure ResponseBody where
  success : Bool
  thesis : Option String
  error : Option String
  ticker : Option String
deriving DecidableEq, Repr

/-- HTTP response of the handler; `body = none` models the literal
`new Response(null, ...)` of the CORS preflight branch. -/
structure ApiResponse where
  status : ℕ
  body : Option ResponseBody
deriving DecidableEq, Repr

/-- Environment of the edge function. An unset variable is modelled by the
empty string, matching the JavaScript falsiness checks `!expectedPassword`
and `!perplexityApiKey`. -/
structure ThesisEnv where
  thesis_password : String
  perplexity_api_key : String
deriving DecidableEq, Repr

/-- Outcome of the single `fetch` to the Perplexity API: an ok response whose
extracted and trimmed message content is `content` (the code's
`choices?.[0]?.message?.content?.trim() || ''`), a response with
`!perplexityResponse.ok`, or a thrown error. -/
inductive PerplexityOutcome where
  | ok (content : String)
  | httpError
  | throws
deriving DecidableEq, Repr

/-- Embeds `handler` from `api/thesis.ts`. The request is given by its method
and parsed JSON body (`none` models a body whose parse throws, which the
code's `catch` turns into a 500 response); the boolean result records whether
the Perplexity API was called. -/
def handler (env : ThesisEnv) (method : String) (body : Option ThesisRequest)
    (perplexity : PerplexityOutcome) : ApiResponse × Bool :=
  if method = "OPTIONS" then
    ({ status := 200, body := none }, false)
  else if method ≠ "POST" then
    ({ status := 405,
       body := some { success := false, thesis := none,
                      error := some "Method not allowed", ticker := none } },
     false)
  else
    match body with
    | none =>
      ({ status := 500,
         body := some { success := false, thesis := none,
                        error := some "Internal server error",
                        ticker := none } },
       false)
    | some req =>
      if env.thesis_password = "" then
        ({ status := 500,
           body := some { success := false, thesis := none,
                          error := some "Server not configured",
                          ticker := none } },
         false)
      else if req.password ≠ env.thesis_password then
        ({ status := 401,
           body := some { success := false, thesis := none,
                          error := some "Invalid password", ticker := none } },
         false)
      else if req.ticker = "" then
        ({ status := 400,
           body := some { success := false, thesis := none,
                          error := some "Ticker is required",
                          ticker := none } },
         false)
      else if env.perplexity_api_key = "" then
        ({ status := 500,
           body := some { success := false, thesis := none,
                          error := some "Perplexity API not configured",
                          ticker := none } },
         false)
      else
        match perplexity with
        | PerplexityOutcome.httpError =>
          ({ status := 500,
             body := some { success := false, thesis := none,
                            error := some "Failed to generate thesis",
                            ticker := none } },
           true)
        | PerplexityOutcome.throws =>
          ({ status := 500,
             body := some { success := false, thesis := none,
                            error := some "Internal server error",
                            ticker := none } },
           true)
        | PerplexityOutcome.ok content =>
          if content = "" then
            ({ status := 500,
               body := some { success := false, thesis := none,
                              error := some "No thesis generated",
                              ticker := none } },
             true)
          else
            ({ status := 200,
               body := some { success := true, thesis := some content,
                              error := none, ticker := some req.ticker } },
             true)

end ThesisApi

/-- Helper: outside the preflight branch every response body is a success
with a thesis or a failure with an error. -/
theorem thesis_body_shape (env : ThesisApi.ThesisEnv) (method : String)
    (body : Option ThesisApi.ThesisRequest)
    (perplexity : ThesisApi.PerplexityOutcome) (h : method ≠ "OPTIONS") :
    ∃ rb, (ThesisApi.handler env method body perplexity).1.body = some rb ∧
      ((rb.success = true ∧ rb.thesis.isSome) ∨
        (rb.success = false ∧ rb.error.isSome)) := by
  unfold ThesisApi.handler
  rw [if_neg h]
  by_cases hp : method = "POST"
  · rw [if_neg (by simp [hp])]
    cases body with
    | none => exact ⟨_, rfl, Or.inr ⟨rfl, rfl⟩⟩
    | some req =>
      dsimp only
      split_ifs with h1 h2 h3 h4
      · exact ⟨_, rfl, Or.inr ⟨rfl, rfl⟩⟩
      · exact ⟨_, rfl, Or.inr ⟨rfl, rfl⟩⟩
      · exact ⟨_, rfl, Or.inr ⟨rfl, rfl⟩⟩
      · exact ⟨_, rfl, Or.inr ⟨rfl, rfl⟩⟩
      · cases perplexity with
        | httpError => exact ⟨_, rfl, Or.inr ⟨rfl, rfl⟩⟩
        | throws => exact ⟨_, rfl, Or.inr ⟨rfl, rfl⟩⟩
        | ok content =>
          dsimp only
          by_cases hc : content = ""
          · rw [if_pos hc]
            exact ⟨_, rfl, Or.inr ⟨rfl, rfl⟩⟩
          · rw [if_neg hc]
            exact ⟨_, rfl, Or.inl ⟨rfl, rfl⟩⟩
  · rw [if_pos (by simp [hp])]
    exact ⟨_, rfl, Or.inr ⟨rfl, rfl⟩⟩

/-- Helper: a parsed request whose password does not match is answered with a
failure body and the Perplexity API is not called. -/
theorem thesis_password_gate (env : ThesisApi.ThesisEnv) (method : String)
    (perplexity : ThesisApi.PerplexityOutcome)
    (req : ThesisApi.ThesisRequest) (h : method ≠ "OPTIONS")
    (hpw : req.password ≠ env.thesis_password) :
    ∃ rb,
      (ThesisApi.handler env method (some req) perplexity).1.body = some rb ∧
      rb.success = false ∧ rb.error.isSome ∧
      (ThesisApi.handler env method (some req) perplexity).2 = false := by
  unfold ThesisApi.handler
  rw [if_neg h]
  by_cases hp : method = "POST"
  · rw [if_neg (by simp [hp])]
    dsimp only
    by_cases h1 : env.thesis_password = ""
    · rw [if_pos h1]
      exact ⟨_, rfl, rfl, rfl, rfl⟩
    · rw [if_neg h1, if_pos hpw]
      exact ⟨_, rfl, rfl, rfl, rfl⟩
  · rw [if_pos (by simp [hp])]
    exact ⟨_, rfl, rfl, rfl, rfl⟩

/-- C3 counterexample: a CORS preflight (`OPTIONS`) request whose body
carries a wrong password is answered with a `null` body — neither
`{ success: true, thesis }` nor `{ success: false, error }`, refuting the
claim over all HTTP requests. -/
theorem thesisHandler_counterexample :
    "bad" ≠
      ({ thesis_password := "pw", perplexity_api_key := "key" } :
        ThesisApi.ThesisEnv).thesis_password ∧
    (ThesisApi.handler { thesis_password := "pw", perplexity_api_key := "key" }
        "OPTIONS"
        (some { ticker := "AAPL", company_name := none, investor_names := none,
                password := "bad" })
        ThesisApi.PerplexityOutcome.httpError).1.body = none :=
  ⟨by decide, rfl⟩

/-- C3 amended: for every request other than the CORS preflight (`OPTIONS`),
the response body is `{ success: true, thesis }` or `{ success: false,
error }`; and whenever the parsed body's password differs from the configured
password the response is a failure body and the Perplexity API is never
called. -/
theorem thesisHandler_shape (env : ThesisApi.ThesisEnv) (method : String)
    (body : Option ThesisApi.ThesisRequest)
    (perplexity : ThesisApi.PerplexityOutcome) (h : method ≠ "OPTIONS") :
    (∃ rb, (ThesisApi.handler env method body perplexity).1.body = some rb ∧
      ((rb.success = true ∧ rb.thesis.isSome) ∨
        (rb.success = false ∧ rb.error.isSome))) ∧
    (∀ req, body = some req → req.password ≠ env.thesis_password →
      ∃ rb,
        (ThesisApi.handler env method body perplexity).1.body = some rb ∧
        rb.success = false ∧ rb.error.isSome ∧
        (ThesisApi.handler env method body perplexity).2 = false) := by
  refine ⟨thesis_body_shape env method body perplexity h, ?_⟩
  intro req hreq hpw
  subst hreq
  exact thesis_password_gate env method perplexity req h hpw

/-- Sample environment for the thesis endpoint. -/
def thesisEnvEx : ThesisApi.ThesisEnv :=
  { thesis_password := "pw", perplexity_api_key := "key" }

/-- Sample request with a wrong password. -/
def thesisReqEx : ThesisApi.ThesisRequest :=
  { ticker := "AAPL", company_name := some "Apple Inc.",
    investor_names := some ["Warren Buffett"], password := "bad" }

/-- C3 witness: the amended theorem applied at a concrete POST request. -/
theorem thesisHandler_shape_witness :
    (∃ rb, (ThesisApi.handler thesisEnvEx "POST" (some thesisReqEx)
        ThesisApi.PerplexityOutcome.httpError).1.body = some rb ∧
      ((rb.success = true ∧ rb.thesis.isSome) ∨
        (rb.success = false ∧ rb.error.isSome))) ∧
    (∀ req, some thesisReqEx = some req →
      req.password ≠ thesisEnvEx.thesis_password →
      ∃ rb,
        (ThesisApi.handler thesisEnvEx "POST" (some thesisReqEx)
          ThesisApi.PerplexityOutcome.httpError).1.body = some rb ∧
        rb.success = false ∧ rb.error.isSome ∧
        (ThesisApi.handler thesisEnvEx "POST" (some thesisReqEx)
          ThesisApi.PerplexityOutcome.httpError).2 = false) :=
  thesisHandler_shape thesisEnvEx "POST" (some thesisReqEx)
    ThesisApi.PerplexityOutcome.httpError (by decide)

/-! ### Presentation-layer field bindings -/

/-- Field paths on the `Stock` record bound by `getStockColumns` in
`stockColumns.tsx` (its `accessorKey`, `accessorFn` and cell accesses), in
column order. -/
def reactStockFieldPaths : List String :=
  ["ticker", "company_name", "fundamentals.pe_ratio", "fundamentals.pb_ratio",
   "fundamentals.week_52_low", "fundamentals.week_52_high",
   "fundamentals.pct_above_52w_low", "fundamentals.pct_below_52w_high",
   "sources", "investor_count", "dataroma_data.investors",
   "aggregate_activity", "fundamentals.market_cap", "fundamentals.peg_ratio",
   "fundamentals.forward_pe", "fundamentals.total_cash",
   "fundamentals.total_debt", "fundamentals.net_debt",
   "fundamentals.insider_pct", "fundamentals.institutional_pct",
   "fundamentals.sector", "fundamentals.industry",
   "fundamentals.current_price", "is_etf", "thesis", "stockanalysis_link"]

/-- Field paths bound by the `data:` options of `initializeTable` in
`docs/app.js`, in column order. -/
def legacyTableFieldPaths : List String :=
  ["ticker", "company_name", "pe_ratio", "pb_ratio", "week_52_high",
   "week_52_low", "peg_ratio", "insider_pct", "sources",
   "dataroma_data.investors", "dataroma_data.activity",
   "substack_data.thesis", "stockanalysis_link"]

/-- Field names the claim says the presentation layer binds to
(`fundamentals.*` covers every path with that prefix). -/
def claimedFieldPaths : List String :=
  ["ticker", "company_name", "sources", "dataroma_data.investors",
   "substack_data.mentions", "aggregate_activity", "investor_count",
   "mention_count", "stockanalysis_link"]

/-- Whether a field path is one of the claimed names; the `fundamentals.*`
pattern is a prefix test. -/
def claimedBinding (s : String) : Bool :=
  claimedFieldPaths.contains s ||
    "fundamentals.".toList.isPrefixOf s.toList

/-- Field paths the presentation layer actually binds beyond the claimed
list: `is_etf` and `thesis` in the React columns, and the legacy dashboard's
top-level fundamentals names, `dataroma_data.activity` and
`substack_data.thesis`. -/
def extraFieldPaths : List String :=
  ["is_etf", "thesis", "pe_ratio", "pb_ratio", "week_52_high", "week_52_low",
   "peg_ratio", "insider_pct", "dataroma_data.activity",
   "substack_data.thesis"]

/-- Whether a field path is claimed or one of the extra bound paths. -/
def amendedBinding (s : String) : Bool :=
  claimedBinding s || extraFieldPaths.contains s

/-- C4 counterexample: the React columns bind `thesis` and `is_etf`, and the
legacy dashboard binds `substack_data.thesis`, none of which is among the
claimed field names. -/
theorem fieldBindings_counterexample :
    reactStockFieldPaths.contains "thesis" = true ∧
    claimedBinding "thesis" = false ∧
    reactStockFieldPaths.contains "is_etf" = true ∧
    claimedBinding "is_etf" = false ∧
    legacyTableFieldPaths.contains "substack_data.thesis" = true ∧
    claimedBinding "substack_data.thesis" = false := by decide

/-- C4 amended: every field path the two table implementations bind is a
claimed name, a `fundamentals.*` path, or one of the extra paths `is_etf`,
`thesis`, the legacy top-level fundamentals names, `dataroma_data.activity`
and `substack_data.thesis`. -/
theorem fieldBindings_amended :
    reactStockFieldPaths.all amendedBinding = true ∧
    legacyTableFieldPaths.all amendedBinding = true := by decide

/-! ### Fundamentals field values and their consumers -/

/-- A JSON field value of the output artifact, as far as the `Fundamentals`
claims need: a number, a string, a boolean, or null. -/
inductive FieldVal where
  | num (q : ℚ)
  | str (s : String)
  | boolean (b : Bool)
  | nullv
deriving DecidableEq, Repr

/-- Injection of a `number | string` field into `FieldVal`. -/
def NumStr.toFieldVal : NumStr → FieldVal
  | NumStr.num q => FieldVal.num q
  | NumStr.str s => FieldVal.str s

/-- All twenty-three field values of a `Fundamentals` record, in declaration
order of the TS interface. -/
def Fundamentals.fieldValues (f : Fundamentals) : List FieldVal :=
  [f.pe_ratio.toFieldVal, f.forward_pe.toFieldVal, f.pb_ratio.toFieldVal,
   f.peg_ratio.toFieldVal, f.week_52_high.toFieldVal,
   f.week_52_low.toFieldVal, f.pct_above_52w_low.toFieldVal,
   f.pct_below_52w_high.toFieldVal, f.current_price.toFieldVal,
   f.previous_close.toFieldVal, f.total_cash.toFieldVal,
   f.total_debt.toFieldVal, f.long_term_debt.toFieldVal,
   f.net_debt.toFieldVal, f.market_cap.toFieldVal,
   f.insider_pct.toFieldVal, f.institutional_pct.toFieldVal,
   FieldVal.str f.sector, FieldVal.str f.industry, FieldVal.str f.country,
   FieldVal.str f.currency, FieldVal.str f.exchange,
   FieldVal.boolean f.is_international]

/-- The claimed shape of a `Fundamentals` field: a finite number or the
literal `'N/A'`. -/
def isNumOrNA : FieldVal → Bool
  | FieldVal.num _ => true
  | FieldVal.str s => s == "N/A"
  | _ => false

/-- JavaScript value passed to the formatting helpers of `stockColumns.tsx`
(`number | string | null | undefined`); a `num` is a finite number, the only
kind the embedding's rationals represent. -/
inductive JsVal where
  | num (q : ℚ)
  | str (s : String)
  | nullv
  | undef
deriving DecidableEq, Repr

/-- Embeds `formatNumber` from `stockColumns.tsx`; the `toLocaleString`
digit grouping is modelled as plain decimal rendering of the rational. -/
def formatNumber : JsVal → String
  | JsVal.nullv => "N/A"
  | JsVal.undef => "N/A"
  | JsVal.str s => if s = "N/A" then "N/A" else s
  | JsVal.num q => toString q

/-- Embeds `coerceNumber` from `stockColumns.tsx`; `Number(value)` string
parsing together with the `Number.isFinite` test is abstracted as the
`parse` argument. -/
def coerceNumber (parse : String → Option ℚ) : JsVal → Option ℚ
  | JsVal.nullv => none
  | JsVal.undef => none
  | JsVal.num q => some q
  | JsVal.str s => if s.trim = "" || s = "N/A" then none else parse s

/-- Helper: a `number | string` field value is never null. -/
theorem NumStr.toFieldVal_ne_nullv (n : NumStr) :
    n.toFieldVal ≠ FieldVal.nullv := by
  cases n <;> simp [NumStr.toFieldVal]

/-- Helper: a `number | string` field value is a number, a string or a
boolean. -/
theorem NumStr.toFieldVal_shape (n : NumStr) :
    (∃ q, n.toFieldVal = FieldVal.num q) ∨
      (∃ s, n.toFieldVal = FieldVal.str s) ∨
      (∃ b, n.toFieldVal = FieldVal.boolean b) := by
  cases n with
  | num q => exact Or.inl ⟨q, rfl⟩
  | str s => exact Or.inr (Or.inl ⟨s, rfl⟩)

/-- C7 counterexample: a `Fundamentals` value of the shape the UI expects
(its `sectorOptions` collects sector strings other than `'N/A'`) has a
field, `sector = "Technology"`, that is neither a finite number nor `'N/A'`,
and its boolean `is_international` field also fails the claimed shape. -/
theorem fundamentalsShape_counterexample :
    FieldVal.str "Technology" ∈ sampleFundamentals.fieldValues ∧
    isNumOrNA (FieldVal.str "Technology") = false ∧
    FieldVal.boolean false ∈ sampleFundamentals.fieldValues ∧
    isNumOrNA (FieldVal.boolean false) = false := by decide

/-- C7 amended: no field of a `Fundamentals` value is null — every field is
a number, a string or a boolean — and the consumers never conflate null with
zero: `formatNumber` maps null, undefined and `'N/A'` to `'N/A'` but maps
the number `0` to `"0"`, and `coerceNumber` maps null to `none` but `0` to
`some 0`. -/
theorem fundamentalsShape (f : Fundamentals) :
    (∀ v ∈ f.fieldValues, v ≠ FieldVal.nullv) ∧
    (∀ v ∈ f.fieldValues,
      (∃ q, v = FieldVal.num q) ∨ (∃ s, v = FieldVal.str s) ∨
        (∃ b, v = FieldVal.boolean b)) ∧
    formatNumber JsVal.nullv = "N/A" ∧
    formatNumber JsVal.undef = "N/A" ∧
    formatNumber (JsVal.str "N/A") = "N/A" ∧
    formatNumber (JsVal.num 0) = "0" ∧
    formatNumber JsVal.nullv ≠ formatNumber (JsVal.num 0) ∧
    (∀ parse, coerceNumber parse JsVal.nullv = none) ∧
    (∀ parse, coerceNumber parse (JsVal.num 0) = some 0) := by
  refine ⟨?_, ?_, rfl, rfl, rfl, ?_, ?_, fun _ => rfl, fun _ => rfl⟩
  · intro v hv
    simp only [Fundamentals.fieldValues, List.mem_cons,
      List.not_mem_nil, or_false] at hv
    rcases hv with rfl | rfl | rfl | rfl | rfl | rfl | rfl | rfl | rfl | rfl |
      rfl | rfl | rfl | rfl | rfl | rfl | rfl | rfl | rfl | rfl | rfl | rfl |
      rfl <;>
      first
      | exact NumStr.toFieldVal_ne_nullv _
      | simp
  · intro v hv
    simp only [Fundamentals.fieldValues, List.mem_cons,
      List.not_mem_nil, or_false] at hv
    rcases hv with rfl | rfl | rfl | rfl | rfl | rfl | rfl | rfl | rfl | rfl |
      rfl | rfl | rfl | rfl | rfl | rfl | rfl | rfl | rfl | rfl | rfl | rfl |
      rfl <;>
      first
      | exact NumStr.toFieldVal_shape _
      | exact Or.inr (Or.inl ⟨_, rfl⟩)
      | exact Or.inr (Or.inr ⟨_, rfl⟩)
  · decide
  · decide

/-! ### Thesis generator (ThesisGenerator.tsx) -/

/-- Parsed JSON payload of the `/api/thesis` response as read by
`handleGenerate` (`payload?.success`, `payload?.error`, `payload?.thesis`);
`none` models a JSON `null` payload. -/
structure GenPayload where
  success : Bool
  thesis : Option String
  error : Option String
deriving DecidableEq, Repr

/-- Outcome of the single `fetch('/api/thesis')` call in `handleGenerate`: a
response with its `ok` flag and parsed payload, or a thrown error with its
message. -/
inductive FetchOutcome where
  | response (ok : Bool) (payload : Option GenPayload)
  | throws (msg : String)
deriving DecidableEq, Repr

/-- Result of one `handleGenerate` invocation: how many requests were
issued, the inline error text set by `setError`, and the `(ticker, thesis)`
pair passed to `onThesisUpdate`, if any. -/
structure GenerateResult where
  requests : ℕ
  inlineError : Option String
  update : Option (String × String)
deriving DecidableEq, Repr

/-- JavaScript `a || b` on a possibly-absent string: the default wins when
the value is missing or empty. -/
def jsOrElse (o : Option String) (d : String) : String :=
  match o with
  | some s => if s = "" then d else s
  | none => d

/-- Password `handleGenerate` ends up with: the session-stored value when
present and non-empty, otherwise the prompt input, where `none` models a
cancelled prompt (`window.prompt` returning `null`, turned into `''`). -/
def effectivePassword (stored promptInput : Option String) : String :=
  match stored with
  | some p => if p = "" then jsOrElse promptInput "" else p
  | none => jsOrElse promptInput ""

/-- Embeds `handleGenerate` from `ThesisGenerator.tsx`: bail out while
loading or without a password, otherwise issue exactly one fetch and either
record the inline error or forward the thesis to `onThesisUpdate`. -/
def handleGenerate (isLoading : Bool) (stored promptInput : Option String)
    (stock : Stock) (outcome : FetchOutcome) : GenerateResult :=
  if isLoading then { requests := 0, inlineError := none, update := none }
  else if effectivePassword stored promptInput = "" then
    { requests := 0, inlineError := none, update := none }
  else
    match outcome with
    | FetchOutcome.throws msg =>
      { requests := 1, inlineError := some msg, update := none }
    | FetchOutcome.response ok payload =>
      if !ok || !(match payload with
          | some p => p.success
          | none => false) then
        { requests := 1,
          inlineError :=
            some (jsOrElse (payload.bind GenPayload.error)
              "Failed to generate thesis"),
          update := none }
      else
        { requests := 1, inlineError := none,
          update :=
            some (stock.ticker, jsOrElse (payload.bind GenPayload.thesis) "") }

/-- Whether the fetch outcome is a failure in the sense of the code's
`!response.ok || !payload?.success` test or a thrown error. -/
def isFailureOutcome : FetchOutcome → Bool
  | FetchOutcome.throws _ => true
  | FetchOutcome.response ok payload =>
    !ok || !(match payload with
      | some p => p.success
      | none => false)

/-- C8: a click issues at most one request, and on every failure outcome of
an actually-issued request the inline error text is set, no thesis update
happens, and exactly one request was made — no retry. -/
theorem handleGenerate_single_request (isLoading : Bool)
    (stored promptInput : Option String) (stock : Stock)
    (outcome : FetchOutcome) :
    (handleGenerate isLoading stored promptInput stock outcome).requests ≤ 1 ∧
    (isLoading = false → effectivePassword stored promptInput ≠ "" →
      isFailureOutcome outcome = true →
      (handleGenerate isLoading stored promptInput stock outcome).requests
          = 1 ∧
      (handleGenerate isLoading stored promptInput stock
          outcome).inlineError.isSome = true ∧
      (handleGenerate isLoading stored promptInput stock outcome).update
          = none) := by
  cases outcome with
  | throws msg =>
    constructor
    · unfold handleGenerate
      split_ifs <;> simp
    · intro h1 h2 _
      simp [handleGenerate, h1, h2]
  | response ok payload =>
    constructor
    · unfold handleGenerate
      split_ifs <;> try simp
      split <;> simp
    · intro h1 h2 h3
      unfold isFailureOutcome at h3
      dsimp only at h3
      unfold handleGenerate
      rw [if_neg (by simp [h1]), if_neg h2]
      dsimp only
      rw [if_pos h3]
      exact ⟨rfl, rfl, rfl⟩

/-- C8 witness: the single-request theorem applied at a concrete failed
request. -/
theorem handleGenerate_single_request_witness :
    (handleGenerate false (some "pw") none sampleStock
      (FetchOutcome.response false none)).requests ≤ 1 ∧
    (false = false → effectivePassword (some "pw") none ≠ "" →
      isFailureOutcome (FetchOutcome.response false none) = true →
      (handleGenerate false (some "pw") none sampleStock
          (FetchOutcome.response false none)).requests = 1 ∧
      (handleGenerate false (some "pw") none sampleStock
          (FetchOutcome.response false none)).inlineError.isSome = true ∧
      (handleGenerate false (some "pw") none sampleStock
          (FetchOutcome.response false none)).update = none) :=
  handleGenerate_single_request false (some "pw") none sampleStock
    (FetchOutcome.response false none)

/-! ### Default ordering of the displayed collection -/

/-- A TanStack table sorting rule (one `SortingState` entry). -/
structure SortRule where
  id : String
  desc : Bool
deriving DecidableEq, Repr

/-- Embeds the initial sorting state of `App.tsx`:
`useState<SortingState>([{ id: 'pe_ratio', desc: false }])`. -/
def initialSorting : List SortRule := [{ id := "pe_ratio", desc := false }]

/-- Embeds the legacy DataTables option `order: [[2, 'asc']]` of
`initializeTable` in `docs/app.js`: sort column index and direction. -/
def legacyTableOrder : List (ℕ × String) := [(2, "asc")]

/-- Numeric PE key of a stock: `some` of the value for a numeric `pe_ratio`,
`none` for the string `'N/A'` marker. -/
def peKey (s : Stock) : Option ℚ :=
  match s.fundamentals.pe_ratio with
  | NumStr.num q => some q
  | NumStr.str _ => none

/-- Modelled from the spec: the default ordering of the emitted collection
(spec section 4.2 step 7) — ascending by the PE valuation ratio when
present, unavailable values after all numeric values, ties broken by
ascending ticker.  The code realizing the comparator (the pipeline in
`data_merger.py` together with the grid's sort) is not among the provided
sources; only the sort column and direction are visible in `src`. -/
def stockLEb (a b : Stock) : Bool :=
  match peKey a, peKey b with
  | some x, some y =>
    decide (x < y) || (decide (x = y) && decide (a.ticker ≤ b.ticker))
  | some _, none => true
  | none, some _ => false
  | none, none => decide (a.ticker ≤ b.ticker)

/-- Propositional form of the stock comparator. -/
def stockLEp (a b : Stock) : Prop := stockLEb a b = true

instance : DecidableRel stockLEp :=
  fun a b => inferInstanceAs (Decidable (stockLEb a b = true))

instance : IsTotal Stock stockLEp where
  total a b := by
    unfold stockLEp stockLEb
    cases hpa : peKey a <;> cases hpb : peKey b <;> dsimp only
    · simp only [decide_eq_true_eq]
      exact le_total a.ticker b.ticker
    · exact Or.inr rfl
    · exact Or.inl rfl
    · simp only [Bool.or_eq_true, Bool.and_eq_true, decide_eq_true_eq]
      rename_i x y
      rcases lt_trichotomy x y with h | h | h
      · exact Or.inl (Or.inl h)
      · subst h
        rcases le_total a.ticker b.ticker with h | h
        · exact Or.inl (Or.inr ⟨rfl, h⟩)
        · exact Or.inr (Or.inr ⟨rfl, h⟩)
      · exact Or.inr (Or.inl h)

instance : IsTrans Stock stockLEp where
  trans a b c hab hbc := by
    unfold stockLEp stockLEb at hab hbc ⊢
    cases hpa : peKey a <;> cases hpb : peKey b <;> cases hpc : peKey c <;>
      rw [hpa, hpb] at hab <;> rw [hpb, hpc] at hbc <;>
      try dsimp only at hab hbc ⊢
    all_goals try exact Bool.noConfusion hab
    all_goals try exact Bool.noConfusion hbc
    · exact decide_eq_true
        (le_trans (of_decide_eq_true hab) (of_decide_eq_true hbc))
    · simp only [Bool.or_eq_true, Bool.and_eq_true, decide_eq_true_eq]
        at hab hbc ⊢
      rename_i x y z
      rcases hab with h1 | ⟨h1, h1t⟩ <;> rcases hbc with h2 | ⟨h2, h2t⟩
      · exact Or.inl (lt_trans h1 h2)
      · exact Or.inl (by rw [← h2]; exact h1)
      · exact Or.inl (by rw [h1]; exact h2)
      · exact Or.inr ⟨h1.trans h2, le_trans h1t h2t⟩

/-- Sorted final collection under the modelled default ordering. -/
def sortStocks (l : List Stock) : List Stock := List.insertionSort stockLEp l

/-- Helper: what one comparator step guarantees, in the claim's terms. -/
theorem stockLEp_spec (a b : Stock) (h : stockLEp a b) :
    (∀ x y, peKey a = some x → peKey b = some y →
      x < y ∨ (x = y ∧ a.ticker ≤ b.ticker)) ∧
    (peKey a = none → peKey b = none ∧ a.ticker ≤ b.ticker) := by
  unfold stockLEp stockLEb at h
  constructor
  · intro x y hx hy
    rw [hx, hy] at h
    dsimp only at h
    simp only [Bool.or_eq_true, Bool.and_eq_true, decide_eq_true_eq] at h
    exact h
  · intro ha
    rw [ha] at h
    cases hpb : peKey b with
    | none =>
      rw [hpb] at h
      dsimp only at h
      exact ⟨rfl, of_decide_eq_true h⟩
    | some y =>
      rw [hpb] at h
      dsimp only at h
      exact Bool.noConfusion h

/-- C5: the default sort of the displayed collection is the `pe_ratio`
column ascending (both the React initial sorting state and the legacy
DataTables order option, whose column index 2 is bound to `pe_ratio`), and
the modelled ordering sorts numerically ascending by PE with unavailable
values after every numeric value and ties broken by ascending ticker, while
only permuting the collection. -/
theorem defaultOrdering (l : List Stock) :
    initialSorting.map (fun r => (r.id, r.desc)) = [("pe_ratio", false)] ∧
    legacyTableOrder = [(2, "asc")] ∧
    legacyTableFieldPaths[2]? = some "pe_ratio" ∧
    (sortStocks l).Perm l ∧
    List.Pairwise
      (fun a b =>
        (∀ x y, peKey a = some x → peKey b = some y →
          x < y ∨ (x = y ∧ a.ticker ≤ b.ticker)) ∧
        (peKey a = none → peKey b = none ∧ a.ticker ≤ b.ticker))
      (sortStocks l) := by
  refine ⟨rfl, rfl, rfl, List.perm_insertionSort stockLEp l, ?_⟩
  exact (List.sorted_insertionSort stockLEp l).imp
    (fun {a b} h => stockLEp_spec a b h)

/-- Sample stock with an unavailable PE ratio. -/
def stockNoPe : Stock :=
  { sampleStock with
    ticker := "NOPE"
    fundamentals := { sampleFundamentals with pe_ratio := NumStr.str "N/A" } }

/-- Sample stock with a low PE ratio. -/
def stockLowPe : Stock :=
  { sampleStock with
    ticker := "MSFT"
    fundamentals := { sampleFundamentals with pe_ratio := NumStr.num 3 } }

/-- C5 witness: the ordering theorem applied at a concrete three-stock list
(numeric PEs 10 and 3, one unavailable PE). -/
theorem defaultOrdering_witness :
    initialSorting.map (fun r => (r.id, r.desc)) = [("pe_ratio", false)] ∧
    legacyTableOrder = [(2, "asc")] ∧
    legacyTableFieldPaths[2]? = some "pe_ratio" ∧
    (sortStocks [sampleStock, stockNoPe, stockLowPe]).Perm
      [sampleStock, stockNoPe, stockLowPe] ∧
    List.Pairwise
      (fun a b =>
        (∀ x y, peKey a = some x → peKey b = some y →
          x < y ∨ (x = y ∧ a.ticker ≤ b.ticker)) ∧
        (peKey a = none → peKey b = none ∧ a.ticker ≤ b.ticker))
      (sortStocks [sampleStock, stockNoPe, stockLowPe]) :=
  defaultOrdering [sampleStock, stockNoPe, stockLowPe]

/-! ### Column preferences and the share URL (useColumnPreferences.ts) -/

/-- Column definition for the table (`ColumnConfig` in `stock.ts`); the
`group` union type becomes a plain string. -/
structure ColumnConfig where
  id : String
  label : String
  visible : Bool
  group : String
deriving DecidableEq, Repr

/-- Embeds `DEFAULT_COLUMNS` from `stock.ts`. -/
def DEFAULT_COLUMNS : List ColumnConfig :=
  [{ id := "ticker", label := "Ticker", visible := true, group := "basic" },
   { id := "company_name", label := "Company", visible := true,
     group := "basic" },
   { id := "pe_ratio", label := "PE Ratio", visible := true,
     group := "valuation" },
   { id := "pb_ratio", label := "PB Ratio", visible := true,
     group := "valuation" },
   { id := "week_52_low", label := "52W Low", visible := true,
     group := "valuation" },
   { id := "week_52_high", label := "52W High", visible := true,
     group := "valuation" },
   { id := "pct_above_52w_low", label := "% Above Low", visible := true,
     group := "valuation" },
   { id := "pct_below_52w_high", label := "% Below High", visible := true,
     group := "valuation" },
   { id := "sources", label := "Sources", visible := true, group := "basic" },
   { id := "investors", label := "Investors", visible := true,
     group := "basic" },
   { id := "activity", label := "Activity", visible := true,
     group := "basic" },
   { id := "market_cap", label := "Market Cap", visible := false,
     group := "valuation" },
   { id := "peg_ratio", label := "PEG", visible := false,
     group := "valuation" },
   { id := "forward_pe", label := "Fwd PE", visible := false,
     group := "valuation" },
   { id := "total_cash", label := "Cash", visible := false,
     group := "valuation" },
   { id := "total_debt", label := "Total Debt", visible := false,
     group := "valuation" },
   { id := "net_debt", label := "Net Debt", visible := false,
     group := "valuation" },
   { id := "insider_pct", label := "Insider %", visible := false,
     group := "other" },
   { id := "institutional_pct", label := "Inst %", visible := false,
     group := "other" },
   { id := "sector", label := "Sector", visible := false, group := "basic" },
   { id := "industry", label := "Industry", visible := false,
     group := "basic" },
   { id := "current_price", label := "Price", visible := false,
     group := "valuation" },
   { id := "is_etf", label := "ETF", visible := false, group := "basic" },
   { id := "thesis", label := "Thesis", visible := false, group := "basic" },
   { id := "link", label := "Link", visible := true, group := "basic" }]

/-- JavaScript `String.prototype.split` with a one-character separator,
modelled on the character list: cut at every separator occurrence, keeping
empty pieces. -/
def splitChars (sep : Char) : List Char → List (List Char)
  | [] => [[]]
  | c :: rest =>
    match splitChars sep rest with
    | [] => [[]]
    | h :: t => if c = sep then [] :: h :: t else (c :: h) :: t

/-- JavaScript `Array.prototype.join` with a one-character separator, on
character lists. -/
def joinChars (sep : Char) : List (List Char) → List Char
  | [] => []
  | [p] => p
  | p :: q :: rest => p ++ sep :: joinChars sep (q :: rest)

/-- JavaScript whitespace test used by the model of `trim`. -/
def isWsChar (c : Char) : Bool :=
  c = ' ' || c = '\t' || c = '\n' || c = '\r'

/-- JavaScript `String.prototype.trim`, modelled on the character list. -/
def jsTrim (s : String) : String :=
  String.mk (((s.data.dropWhile isWsChar).reverse.dropWhile isWsChar).reverse)

/-- JavaScript `String.prototype.split` on strings. -/
def jsSplit (sep : Char) (s : String) : List String :=
  (splitChars sep s.data).map String.mk

/-- JavaScript `Array.prototype.join` on strings. -/
def jsJoin (sep : Char) (parts : List String) : String :=
  String.mk (joinChars sep (parts.map String.data))

/-- Embeds `getColumnsFromUrl` from `useColumnPreferences.ts`, applied to
the value of a present `cols` query parameter: the empty value is falsy
(`if (cols)`) and yields no URL columns; any other value is split on commas
and trimmed. -/
def getColumnsFromUrl (cols : String) : Option (List String) :=
  if cols = "" then none
  else some ((jsSplit ',' cols).map jsTrim)

/-- Embeds the `cols` parameter value set by `getShareableUrl` in
`useColumnPreferences.ts`: the ids of the visible columns joined with
commas. -/
def shareableColsParam (columns : List ColumnConfig) : String :=
  jsJoin ',' ((columns.filter (fun c => c.visible)).map (fun c => c.id))

/-- Embeds the initial-state priority of `useColumnPreferences`: URL columns
beat stored preferences beat the defaults; with URL columns present, each
default column is visible exactly when its id occurs in the URL list
(`urlCols.includes(col.id)`). -/
def columnsFromPrefs (urlCols : Option (List String))
    (storedCols : Option (List ColumnConfig)) : List ColumnConfig :=
  match urlCols with
  | some ids =>
    DEFAULT_COLUMNS.map (fun col => { col with visible := decide (col.id ∈ ids) })
  | none =>
    match storedCols with
    | some cs => cs
    | none => DEFAULT_COLUMNS

/-- Round trip of a column configuration through the share URL: serialize
the visible columns with `getShareableUrl`, then reload preferences from
that URL. -/
def shareRoundTrip (columns : List ColumnConfig)
    (storedCols : Option (List ColumnConfig)) : List ColumnConfig :=
  columnsFromPrefs (getColumnsFromUrl (shareableColsParam columns)) storedCols

/-- Helper: `split` never returns an empty piece list. -/
theorem splitChars_ne_nil (sep : Char) (l : List Char) :
    splitChars sep l ≠ [] := by
  induction l with
  | nil => simp [splitChars]
  | cons c rest ih =>
    unfold splitChars
    cases h : splitChars sep rest with
    | nil => simp
    | cons hd tl => split_ifs <;> simp

/-- Helper: a separator-free list splits into itself. -/
theorem splitChars_of_not_mem (sep : Char) (l : List Char) (h : sep ∉ l) :
    splitChars sep l = [l] := by
  induction l with
  | nil => rfl
  | cons c rest ih =>
    have hc : c ≠ sep := fun hh => h (by rw [← hh]; exact List.mem_cons_self c rest)
    have hr : sep ∉ rest := fun hh => h (List.mem_cons_of_mem c hh)
    unfold splitChars
    rw [ih hr]
    simp [hc]

/-- Helper: splitting after a separator-free prefix peels that prefix off. -/
theorem splitChars_append_sep (sep : Char) (p r : List Char) (hp : sep ∉ p) :
    splitChars sep (p ++ sep :: r) = p :: splitChars sep r := by
  induction p with
  | nil =>
    cases h : splitChars sep r with
    | nil => exact absurd h (splitChars_ne_nil sep r)
    | cons hd tl =>
      rw [List.nil_append, splitChars, h]
      simp
  | cons c pt ih =>
    have hc : c ≠ sep := fun hh => hp (by rw [← hh]; exact List.mem_cons_self c pt)
    have hpt : sep ∉ pt := fun hh => hp (List.mem_cons_of_mem c hh)
    rw [List.cons_append, splitChars, ih hpt]
    simp [hc]

/-- Helper: split is a left inverse of join on nonempty, separator-free
pieces. -/
theorem splitChars_joinChars (sep : Char) :
    ∀ parts : List (List Char), parts ≠ [] → (∀ p ∈ parts, sep ∉ p) →
      splitChars sep (joinChars sep parts) = parts
  | [], h, _ => absurd rfl h
  | [p], _, hs => by
    unfold joinChars
    exact splitChars_of_not_mem sep p (hs p (List.mem_singleton_self p))
  | p :: q :: rest, _, hs => by
    unfold joinChars
    rw [splitChars_append_sep sep p (joinChars sep (q :: rest))
      (hs p (List.mem_cons_self p _))]
    rw [splitChars_joinChars sep (q :: rest) (by simp)
      (fun x hx => hs x (List.mem_cons_of_mem p hx))]

/-- Helper: rebuilding a string from its characters is the identity. -/
theorem stringMk_data (s : String) : String.mk s.data = s := rfl

/-- Helper: mapping to characters and back is the identity on string
lists. -/
theorem map_mk_data (l : List String) :
    (l.map String.data).map String.mk = l := by
  induction l with
  | nil => rfl
  | cons a t ih => simp only [List.map_cons, stringMk_data, ih]

/-- Helper: a join of character lists is empty only for no pieces or a
single empty piece. -/
theorem joinChars_eq_nil (sep : Char) :
    ∀ parts : List (List Char), joinChars sep parts = [] →
      parts = [] ∨ parts = [[]]
  | [], _ => Or.inl rfl
  | [p], h => by
    unfold joinChars at h
    exact Or.inr (by rw [h])
  | p :: q :: rest, h => by
    unfold joinChars at h
    rcases List.append_eq_nil.mp h with ⟨_, h2⟩
    cases h2

/-- Helper: string-level split is a left inverse of string-level join on
nonempty lists of comma-free strings. -/
theorem jsSplit_jsJoin (sep : Char) (parts : List String) (h : parts ≠ [])
    (hs : ∀ p ∈ parts, sep ∉ p.data) :
    jsSplit sep (jsJoin sep parts) = parts := by
  unfold jsSplit jsJoin
  rw [show (String.mk (joinChars sep (parts.map String.data))).data
      = joinChars sep (parts.map String.data) from rfl]
  rw [splitChars_joinChars sep (parts.map String.data)
      (by simpa using h)
      (by
        intro p hp
        obtain ⟨q, hq, rfl⟩ := List.mem_map.mp hp
        exact hs q hq)]
  exact map_mk_data parts

/-- The ids of the default columns. -/
def defaultColumnIds : List String := DEFAULT_COLUMNS.map (fun c => c.id)

/-- Helper: the default column ids are distinct, nonempty, comma-free and
trim-invariant. -/
theorem defaultColumnIds_facts :
    defaultColumnIds.Nodup ∧
    ∀ s ∈ defaultColumnIds, s ≠ "" ∧ ',' ∉ s.data ∧ jsTrim s = s := by
  decide

/-- The default columns with every column hidden. -/
def allHiddenColumns : List ColumnConfig :=
  DEFAULT_COLUMNS.map (fun c => { c with visible := false })

/-- C10 counterexample: with every column hidden the `cols` parameter is the
empty string, which `getColumnsFromUrl` treats as absent, so the round trip
falls back to the defaults and does not reproduce the visibility
assignment. -/
theorem shareRoundTrip_counterexample :
    allHiddenColumns.map (fun c => c.id) =
      DEFAULT_COLUMNS.map (fun c => c.id) ∧
    shareableColsParam allHiddenColumns = "" ∧
    (shareRoundTrip allHiddenColumns none).map (fun c => c.visible) ≠
      allHiddenColumns.map (fun c => c.visible) := by decide

/-- Helper: a `Forall₂` relation can be strengthened using membership of the
related elements. -/
theorem forall₂_imp_mem {α β : Type} {R S : α → β → Prop} :
    ∀ {l₁ : List α} {l₂ : List β}, List.Forall₂ R l₁ l₂ →
      (∀ a b, a ∈ l₁ → b ∈ l₂ → R a b → S a b) → List.Forall₂ S l₁ l₂ := by
  intro l₁ l₂ h
  induction h with
  | nil => exact fun _ => List.Forall₂.nil
  | cons hab _ ih =>
    intro hmem
    exact List.Forall₂.cons
      (hmem _ _ (List.mem_cons_self _ _) (List.mem_cons_self _ _) hab)
      (ih fun a b ha hb hr =>
        hmem a b (List.mem_cons_of_mem _ ha) (List.mem_cons_of_mem _ hb) hr)

/-- Helper: equal images under `map` give a pointwise relation. -/
theorem forall₂_of_map_eq {α β γ : Type} {f : α → γ} {g : β → γ} :
    ∀ {l₁ : List α} {l₂ : List β}, l₁.map f = l₂.map g →
      List.Forall₂ (fun a b => f a = g b) l₁ l₂ := by
  intro l₁
  induction l₁ with
  | nil =>
    intro l₂ h
    cases l₂ with
    | nil => exact List.Forall₂.nil
    | cons b t => simp at h
  | cons a t ih =>
    intro l₂ h
    cases l₂ with
    | nil => simp at h
    | cons b t2 =>
      simp only [List.map_cons, List.cons.injEq] at h
      exact List.Forall₂.cons h.1 (ih h.2)

/-- C10 amended: for every column configuration whose ids are exactly those
of `DEFAULT_COLUMNS` and which has at least one visible column, parsing the
`cols` parameter produced by `getShareableUrl` reproduces the visibility of
every column, regardless of stored preferences. -/
theorem shareRoundTrip_reproduces (cs : List ColumnConfig)
    (stored : Option (List ColumnConfig))
    (hids : cs.map (fun c => c.id) = DEFAULT_COLUMNS.map (fun c => c.id))
    (hvis : ∃ c ∈ cs, c.visible = true) :
    List.Forall₂ (fun a b => a.id = b.id ∧ a.visible = b.visible)
      cs (shareRoundTrip cs stored) := by
  obtain ⟨hnd, hprops⟩ := defaultColumnIds_facts
  have hmemid : ∀ c ∈ cs, c.id ∈ defaultColumnIds := by
    intro c hc
    have hmi : c.id ∈ cs.map (fun c => c.id) :=
      List.mem_map_of_mem (fun c => c.id) hc
    rw [hids] at hmi
    exact hmi
  set vis := (cs.filter (fun c => c.visible)).map (fun c => c.id) with hvisdef
  have hvis_sub : ∀ s ∈ vis, s ∈ defaultColumnIds := by
    intro s hsv
    obtain ⟨c, hc, rfl⟩ := List.mem_map.mp hsv
    exact hmemid c (List.mem_of_mem_filter hc)
  have hvis_ne : vis ≠ [] := by
    obtain ⟨c, hc, hcv⟩ := hvis
    have hmv : c.id ∈ vis :=
      List.mem_map_of_mem (fun c => c.id) (List.mem_filter.mpr ⟨hc, hcv⟩)
    intro he
    rw [he] at hmv
    exact List.not_mem_nil _ hmv
  have hparam : shareableColsParam cs ≠ "" := by
    intro he
    unfold shareableColsParam jsJoin at he
    rw [← hvisdef] at he
    have hdata : joinChars ',' (vis.map String.data) = [] :=
      congrArg String.data he
    rcases joinChars_eq_nil ',' (vis.map String.data) hdata with h0 | h1
    · exact hvis_ne (by simpa using h0)
    · have : ∃ s, vis = [s] ∧ s.data = [] := by
        cases hv : vis with
        | nil => rw [hv] at h1; simp at h1
        | cons s t =>
          rw [hv] at h1
          simp only [List.map_cons, List.cons.injEq] at h1
          obtain ⟨hs, ht⟩ := h1
          have ht2 : t = [] := by
            cases t with
            | nil => rfl
            | cons u v => simp at ht
          exact ⟨s, by rw [ht2], hs⟩
      obtain ⟨s, hv1, hsd⟩ := this
      have hsm : s ∈ vis := by rw [hv1]; exact List.mem_singleton_self s
      have hne := (hprops s (hvis_sub s hsm)).1
      exact hne (by
        have := congrArg String.mk hsd
        rwa [stringMk_data] at this)
  have hsplit : getColumnsFromUrl (shareableColsParam cs) = some vis := by
    unfold getColumnsFromUrl
    rw [if_neg hparam]
    have h1 : jsSplit ',' (shareableColsParam cs) = vis := by
      unfold shareableColsParam
      rw [← hvisdef]
      exact jsSplit_jsJoin ',' vis hvis_ne
        (fun p hp => (hprops p (hvis_sub p hp)).2.1)
    rw [h1]
    have h2 : vis.map jsTrim = vis.map id :=
      List.map_congr_left (fun s hs => (hprops s (hvis_sub s hs)).2.2)
    rw [h2, List.map_id]
  have hinj := List.inj_on_of_nodup_map
    (show (cs.map (fun c => c.id)).Nodup by rw [hids]; exact hnd)
  have hvisfact : ∀ a ∈ cs, decide (a.id ∈ vis) = a.visible := by
    intro a ha
    by_cases hv : a.visible = true
    · rw [hv]
      refine decide_eq_true ?_
      exact List.mem_map_of_mem (fun c => c.id) (List.mem_filter.mpr ⟨ha, hv⟩)
    · rw [Bool.not_eq_true] at hv
      rw [hv]
      refine decide_eq_false ?_
      intro hmem
      obtain ⟨b, hb, hbid⟩ := List.mem_map.mp hmem
      have hbmem := List.mem_of_mem_filter hb
      have hbvis := List.of_mem_filter hb
      have hba := hinj hbmem ha hbid
      rw [hba] at hbvis
      rw [hv] at hbvis
      cases hbvis
  unfold shareRoundTrip
  rw [hsplit]
  unfold columnsFromPrefs
  rw [List.forall₂_map_right_iff]
  refine forall₂_imp_mem (forall₂_of_map_eq hids) ?_
  intro a col ha _ hid
  refine ⟨hid, ?_⟩
  show a.visible = decide (col.id ∈ vis)
  rw [← hid]
  exact (hvisfact a ha).symm

/-- C10 witness: the round-trip theorem applied at the default columns
themselves (eleven visible columns). -/
theorem shareRoundTrip_reproduces_witness :
    List.Forall₂ (fun a b => a.id = b.id ∧ a.visible = b.visible)
      DEFAULT_COLUMNS (shareRoundTrip DEFAULT_COLUMNS none) :=
  shareRoundTrip_reproduces DEFAULT_COLUMNS none rfl (by decide)

end InvestmentAutomation
